import Mathlib

/-!
Verification of the realtime messaging and access-control subsystem of the
community-hub repository (chat messages, row-level policies, poll votes,
comments, admin bootstrap). Definitions are shallow embeddings of the SQL
schema/policies (src/unnamed/part_000) and of the TypeScript client logic
(ChatPanel.tsx, PollCard.tsx, setup-admin/index.ts). Identifiers (uuids)
are modelled as strings, timestamps as naturals.
-/

namespace Game

/-- `message_type text CHECK (message_type IN ('user','system'))`. -/
inductive MessageType
| user
| system
deriving DecidableEq, Repr

/-- A row of `public.chat_messages`: `id uuid, content text NOT NULL,
sender_id uuid NOT NULL, receiver_id uuid (nullable), is_group_message
boolean DEFAULT false, created_at timestamptz, message_type`. -/
structure ChatMessage where
  id : String
  content : String
  sender_id : String
  receiver_id : Option String
  is_group_message : Bool
  created_at : Nat
  message_type : MessageType
deriving DecidableEq, Repr

/-- RLS SELECT policy "Users can see group messages" on `chat_messages`:
`USING ((is_group_message = true) OR (sender_id = auth.uid()) OR
(receiver_id = auth.uid()))`. A NULL `receiver_id` compares unequal to any
uid, which `Option.some` equality mirrors. -/
def canReadMessage (uid : String) (m : ChatMessage) : Bool :=
  m.is_group_message || m.sender_id == uid || m.receiver_id == some uid

/-- Modelled from the spec's words (for comparison with the policy taken
from the SQL source): "visible(M, U) = isGroupMessage(M) ∨ senderId(M)=U ∨
receiverId(M)=U". -/
def visibleSpec (m : ChatMessage) (uid : String) : Prop :=
  m.is_group_message = true ∨ m.sender_id = uid ∨ m.receiver_id = some uid

/-- Errors a store operation can surface to the client. -/
inductive StoreError
| policyError
| constraintError
| checkViolation
deriving DecidableEq, Repr

/-- RLS INSERT policy "Users can send messages" on `chat_messages`:
`WITH CHECK (auth.uid() = sender_id)`; on success the row is appended to
the table. -/
def insertChatMessage (uid : String) (m : ChatMessage)
    (table : List ChatMessage) : Except StoreError (List ChatMessage) :=
  if uid == m.sender_id then .ok (table ++ [m]) else .error .policyError

/-- The client's logical chat target (`activeChat : 'group' | string`, a
peer user id). -/
inductive ChatTarget
| group
| peer (id : String)
deriving DecidableEq, Repr

/-- The row shape ChatPanel's `sendMessage` passes to
`supabase.from('chat_messages').insert(...)`. -/
structure InsertMessageReq where
  content : String
  sender_id : String
  receiver_id : Option String
  is_group_message : Bool
  message_type : MessageType
deriving DecidableEq, Repr

/-- `activeChat === 'group' ? null : activeChat` (the receiver stamped on
an outgoing message). -/
def stampReceiver (t : ChatTarget) : Option String :=
  match t with
  | .group => none
  | .peer p => some p

/-- `activeChat === 'group'` (the group flag stamped on an outgoing
message). -/
def stampGroup (t : ChatTarget) : Bool :=
  match t with
  | .group => true
  | .peer _ => false

/-- ChatPanel's `sendMessage`: returns the new message list, the new input
text, and the insert request issued to the store (`none` when no network
call is made). Mirrors: early return on blank trimmed input, otherwise
append an optimistic message (id `'temp-' + Date.now()`, trimmed content,
current user as sender, channel stamp from `activeChat`, local timestamp,
type `user`), clear the input, then issue the insert. -/
def sendMessage (uid : String) (now : Nat) (activeChat : ChatTarget)
    (messages : List ChatMessage) (newMessage : String) :
    List ChatMessage × String × Option InsertMessageReq :=
  if newMessage.trim == "" then (messages, newMessage, none)
  else
    let optimisticMessage : ChatMessage :=
      { id := "temp-" ++ toString now
        content := newMessage.trim
        sender_id := uid
        receiver_id := stampReceiver activeChat
        is_group_message := stampGroup activeChat
        created_at := now
        message_type := .user }
    (messages ++ [optimisticMessage], "",
      some { content := optimisticMessage.content
             sender_id := uid
             receiver_id := stampReceiver activeChat
             is_group_message := stampGroup activeChat
             message_type := .user })

/-- A row of `public.profiles` (the fields the join trigger reads). -/
structure Profile where
  id : String
  username : String
deriving DecidableEq, Repr

/-- Trigger function `send_join_message`: inserts into `chat_messages` the
row `(NEW.username || ' joined the chat', NEW.id, true, 'system')`; id and
created_at are server-assigned, passed here as parameters. -/
def send_join_message (p : Profile) (newId : String) (now : Nat)
    (table : List ChatMessage) : List ChatMessage :=
  table ++ [{ id := newId
              content := p.username ++ " joined the chat"
              sender_id := p.id
              receiver_id := none
              is_group_message := true
              created_at := now
              message_type := .system }]

/-- The profile and chat-message tables together. -/
structure StoreTables where
  profiles : List Profile
  chat_messages : List ChatMessage
deriving DecidableEq, Repr

/-- Effect of inserting a profile row: the row is stored and the AFTER
INSERT trigger `on_profile_created_send_join` fires `send_join_message`
(SECURITY DEFINER, so it bypasses the chat-message policies). -/
def insertProfileRow (p : Profile) (newId : String) (now : Nat)
    (s : StoreTables) : StoreTables :=
  { profiles := s.profiles ++ [p]
    chat_messages := send_join_message p newId now s.chat_messages }

/-- Browser notification permission: `'default' | 'granted' | 'denied'`. -/
inductive NotifPermission
| default
| granted
| denied
deriving DecidableEq, Repr

/-- An entry of the `members` list (profiles other than the current user). -/
structure Member where
  id : String
  username : String
deriving DecidableEq, Repr

/-- The arguments ChatPanel passes to `sendNotification(title, {body, tag})`. -/
structure ChatNotice where
  title : String
  body : String
  tag : String
deriving DecidableEq, Repr

/-- `members.find(m => m.id === newMsg.sender_id)?.username || 'Someone'`;
JS `||` treats the empty string as falsy. -/
def senderNameOf (members : List Member) (senderId : String) : String :=
  match members.find? (fun m => m.id == senderId) with
  | some m => if m.username == "" then "Someone" else m.username
  | none => "Someone"

/-- ChatPanel's `postgres_changes` INSERT handler for `chat_messages`:
if the new row is relevant (group, or sent by, or addressed to the current
user) it triggers a re-fetch (first component `true`) and, when the sender
is someone else and permission is granted, raises exactly one notification
whose body is the plain content for system messages and
`senderName + ': ' + content` for user messages. -/
def onMessageInsert (uid : String) (perm : NotifPermission)
    (members : List Member) (msg : ChatMessage) : Bool × Option ChatNotice :=
  if msg.is_group_message || msg.sender_id == uid || msg.receiver_id == some uid then
    (true,
      if msg.sender_id != uid && perm == .granted then
        some { title := "New Message"
               body := if msg.message_type == .system then msg.content
                       else senderNameOf members msg.sender_id ++ ": " ++ msg.content
               tag := "chat-message" }
      else none)
  else (false, none)

/-- The filter `fetchMessages` builds for the active chat: group target →
`is_group_message = true`; peer target p → `is_group_message = false AND
((sender = self AND receiver = p) OR (sender = p AND receiver = self))`. -/
def channelFilter (uid : String) (t : ChatTarget) (m : ChatMessage) : Bool :=
  match t with
  | .group => m.is_group_message
  | .peer p =>
    !m.is_group_message &&
      ((m.sender_id == uid && m.receiver_id == some p) ||
       (m.sender_id == p && m.receiver_id == some uid))

/-- ChatPanel view state for the channel-switch race: the active chat, the
displayed message list, and the in-flight `fetchMessages` calls, each
tagged with the `activeChat` value its closure captured when it was
issued. -/
structure PanelState where
  activeChat : ChatTarget
  messages : List ChatMessage
  pending : List ChatTarget
deriving DecidableEq, Repr

/-- Scheduler events: `switchChat t` models `openChat` plus the effect
re-run it triggers (a new `fetchMessages` for `t` is started; the cleanup
removes only the realtime channels, it does not cancel in-flight fetches);
`fetchReturns k` models the k-th pending fetch resolving, whose
continuation calls `setMessages` with the rows matching its captured
filter, unconditionally. -/
inductive PanelEvent
| switchChat (t : ChatTarget)
| fetchReturns (k : Nat)
deriving DecidableEq, Repr

/-- One scheduler step of the ChatPanel model over a fixed store content
`db`. -/
def stepPanel (uid : String) (db : List ChatMessage) (s : PanelState) :
    PanelEvent → PanelState
  | .switchChat t => { s with activeChat := t, pending := s.pending ++ [t] }
  | .fetchReturns k =>
    match s.pending.get? k with
    | some t =>
      { s with messages := db.filter (channelFilter uid t)
               pending := s.pending.eraseIdx k }
    | none => s

/-- Run a sequence of scheduler events. -/
def runPanel (uid : String) (db : List ChatMessage) (s : PanelState)
    (events : List PanelEvent) : PanelState :=
  events.foldl (stepPanel uid db) s

/-- A direct message from peer1 to the current user "me": it belongs only
to the direct channel with peer1, not to the group channel. -/
def staleMsg : ChatMessage :=
  { id := "m1"
    content := "hi"
    sender_id := "peer1"
    receiver_id := some "me"
    is_group_message := false
    created_at := 1
    message_type := .user }

/-- The race: the user is viewing the direct chat with peer1 whose fetch
is still in flight, switches to the group chat (which starts the group
fetch), and then the stale direct-chat fetch resolves. -/
def staleTraceFinal : PanelState :=
  runPanel "me" [staleMsg]
    { activeChat := .peer "peer1", messages := [], pending := [.peer "peer1"] }
    [.switchChat .group, .fetchReturns 0]

/-- A row of `public.poll_votes`. -/
structure PollVote where
  poll_id : String
  user_id : String
  option_index : Int
deriving DecidableEq, Repr

/-- INSERT into poll_votes: policy "Users can vote" `WITH CHECK (auth.uid()
= user_id)`, then the `poll_votes_poll_id_user_id_key UNIQUE (poll_id,
user_id)` constraint. -/
def insertVote (uid : String) (v : PollVote) (table : List PollVote) :
    Except StoreError (List PollVote) :=
  if !(uid == v.user_id) then .error .policyError
  else if table.any (fun w => w.poll_id == v.poll_id && w.user_id == v.user_id) then
    .error .constraintError
  else .ok (table ++ [v])

/-- UPDATE of poll_votes: policy "Users can change their vote" `USING
(auth.uid() = user_id)` restricts the updatable rows to the acting user's
own; an update targeting the (pollId, uid) row rewrites `option_index` in
place, creating no row. -/
def updateVote (uid : String) (pollId : String) (newIndex : Int)
    (table : List PollVote) : List PollVote :=
  table.map (fun w =>
    if w.user_id == uid && w.poll_id == pollId then
      { w with option_index := newIndex }
    else w)

/-- A row of `public.comments`. -/
structure CommentRow where
  id : String
  content : String
  user_id : String
  schedule_id : Option String
  poll_id : Option String
deriving DecidableEq, Repr

/-- The `comments_check` CHECK constraint: `((schedule_id IS NOT NULL) AND
(poll_id IS NULL)) OR ((schedule_id IS NULL) AND (poll_id IS NOT NULL))`. -/
def comments_check (c : CommentRow) : Bool :=
  (c.schedule_id.isSome && c.poll_id.isNone) ||
  (c.schedule_id.isNone && c.poll_id.isSome)

/-- INSERT into comments: policy "Users can create comments" `WITH CHECK
(auth.uid() = user_id)` and the comments_check constraint. -/
def insertComment (uid : String) (c : CommentRow) (table : List CommentRow) :
    Except StoreError (List CommentRow) :=
  if !(uid == c.user_id) then .error .policyError
  else if !(comments_check c) then .error .checkViolation
  else .ok (table ++ [c])

/-- An `auth.users` row as the setup-admin function sees it. -/
structure AuthUser where
  id : String
  email : String
  username : String
deriving DecidableEq, Repr

/-- `public.app_role`. -/
inductive AppRole
| admin
| member
deriving DecidableEq, Repr

/-- A row of `public.user_roles` (key fields). -/
structure UserRole where
  user_id : String
  role : AppRole
deriving DecidableEq, Repr

/-- The tables the setup-admin function touches. -/
structure AdminState where
  authUsers : List AuthUser
  profiles : List Profile
  userRoles : List UserRole
deriving DecidableEq, Repr

/-- The handler's admin-existence check: `u.email ===
'admin@matchschedule.local' || u.email === 'admin@gamezone.com'`. -/
def isAdminEmail (u : AuthUser) : Bool :=
  u.email == "admin@matchschedule.local" || u.email == "admin@gamezone.com"

/-- The setup-admin edge function's success path: if an admin user already
exists, respond "Admin already exists" with no writes; otherwise create
the auth user `admin@matchschedule.local` (its id chosen by the auth
service, passed as `freshId`), insert its profile row and its admin role
row. -/
def setupAdmin (freshId : String) (s : AdminState) : AdminState :=
  if s.authUsers.any isAdminEmail then s
  else
    { authUsers := s.authUsers ++
        [{ id := freshId, email := "admin@matchschedule.local", username := "admin" }]
      profiles := s.profiles ++ [{ id := freshId, username := "admin" }]
      userRoles := s.userRoles ++ [{ user_id := freshId, role := .admin }] }

/-- An entry of PollCard's `votes` prop: `{ option_index, user_id }`. -/
structure VoteRecord where
  option_index : Int
  user_id : String
deriving DecidableEq, Repr

/-- `votes.find(v => v.user_id === user?.id)` (undefined user matches no
row). -/
def userVote (user : Option String) (votes : List VoteRecord) :
    Option VoteRecord :=
  match user with
  | none => none
  | some u => votes.find? (fun v => v.user_id == u)

/-- The row shape PollCard passes to `supabase.from('poll_votes')
.insert(...)`. -/
structure InsertVoteReq where
  poll_id : String
  user_id : String
  option_index : Int
deriving DecidableEq, Repr

/-- PollCard's `handleVote`: `if (!user || userVote) return;` then issue
the vote insert; returns the insert request, or `none` when no call is
made. -/
def handleVote (user : Option String) (votes : List VoteRecord)
    (pollId : String) (optionIndex : Int) : Option InsertVoteReq :=
  match user with
  | none => none
  | some u =>
    if (votes.find? (fun v => v.user_id == u)).isSome then none
    else some { poll_id := pollId, user_id := u, option_index := optionIndex }

/-- An option button's `disabled={hasVoted}` where `hasVoted =
!!userVote`. -/
def optionDisabled (user : Option String) (votes : List VoteRecord) : Bool :=
  (userVote user votes).isSome

/-- An option button's click path: `onClick={() => !hasVoted &&
handleVote(index)}`. -/
def optionClick (user : Option String) (votes : List VoteRecord)
    (pollId : String) (idx : Int) : Option InsertVoteReq :=
  if optionDisabled user votes then none else handleVote user votes pollId idx

end Game

namespace Game

/-- Updating votes never changes a row's (poll_id, user_id) key, so the
count of rows for any key is preserved. -/
theorem updateVote_countP (uid pollId : String) (i : Int)
    (table : List PollVote) :
    (updateVote uid pollId i table).countP
        (fun w => w.poll_id == pollId && w.user_id == uid) =
      table.countP (fun w => w.poll_id == pollId && w.user_id == uid) := by
  unfold updateVote
  induction table with
  | nil => rfl
  | cons a l ih =>
    rw [List.map_cons, List.countP_cons, List.countP_cons, ih]
    by_cases hc : (a.user_id == uid && a.poll_id == pollId) = true
    · rw [if_pos hc]
    · rw [if_neg hc]

/-- C1: the SELECT policy on chat messages allows identity U to read
message M exactly when M is a group message, or U is the sender, or U is
the receiver — the policy from the SQL source coincides with the spec's
visibility predicate. -/
theorem c1_read_policy_matches_spec :
    ∀ (m : ChatMessage) (u : String),
      canReadMessage u m = true ↔ visibleSpec m u := by
  intro m u
  unfold canReadMessage visibleSpec
  constructor
  · intro h
    rcases Bool.or_eq_true_iff.mp h with h1 | h2
    · rcases Bool.or_eq_true_iff.mp h1 with hg | hs
      · exact Or.inl hg
      · exact Or.inr (Or.inl (by simpa using hs))
    · exact Or.inr (Or.inr (by simpa using h2))
  · intro h
    rcases h with hg | hs | hr
    · simp [hg]
    · simp [hs]
    · simp [hr]

/-- C2: the INSERT policy on chat messages accepts a row exactly when the
declared sender_id equals the acting identity's uid (the row is then
appended), and rejects it with a policy error exactly otherwise. -/
theorem c2_insert_policy_sender_only :
    ∀ (uid : String) (m : ChatMessage) (table : List ChatMessage),
      (insertChatMessage uid m table = .ok (table ++ [m]) ↔ m.sender_id = uid) ∧
      (insertChatMessage uid m table = .error .policyError ↔ m.sender_id ≠ uid) := by
  intro uid m table
  unfold insertChatMessage
  by_cases h : uid = m.sender_id
  · subst h
    simp
  · constructor
    · constructor
      · intro hc
        simp [beq_iff_eq, h] at hc
      · intro hc
        exact absurd hc.symm h
    · constructor
      · intro _ hc
        exact h hc.symm
      · intro _
        simp [beq_iff_eq, h]

/-- C3: with a logged-in user, `sendMessage` on input whose trim is
non-empty appends exactly one provisional message at the end of the list —
temporary (`temp-`-prefixed) id, trimmed content, current user as sender,
type `user`, local timestamp, and the channel stamp
`{isGroupMessage := true, receiverId := none}` for the group target or
`{isGroupMessage := false, receiverId := some p}` for peer `p` — and
issues the matching insert; on input whose trim is empty it makes no
network call and leaves the list (and input) unchanged. -/
theorem c3_optimistic_send :
    ∀ (uid : String) (now : Nat) (target : ChatTarget)
      (messages : List ChatMessage) (draft : String),
      (draft.trim = "" →
        sendMessage uid now target messages draft = (messages, draft, none)) ∧
      (draft.trim ≠ "" →
        ∃ m : ChatMessage,
          (sendMessage uid now target messages draft).1 = messages ++ [m] ∧
          (∃ suffix, m.id = "temp-" ++ suffix) ∧
          m.content = draft.trim ∧
          m.sender_id = uid ∧
          m.message_type = .user ∧
          m.created_at = now ∧
          (target = .group → m.is_group_message = true ∧ m.receiver_id = none) ∧
          (∀ p, target = .peer p →
            m.is_group_message = false ∧ m.receiver_id = some p) ∧
          (sendMessage uid now target messages draft).2.2 =
            some { content := m.content
                   sender_id := uid
                   receiver_id := m.receiver_id
                   is_group_message := m.is_group_message
                   message_type := .user }) := by
  intro uid now target messages draft
  constructor
  · intro h
    simp [sendMessage, h]
  · intro h
    refine ⟨{ id := "temp-" ++ toString now
              content := draft.trim
              sender_id := uid
              receiver_id := stampReceiver target
              is_group_message := stampGroup target
              created_at := now
              message_type := .user }, ?_, ⟨toString now, rfl⟩, rfl, rfl, rfl, rfl,
            ?_, ?_, ?_⟩
    · simp [sendMessage, h]
    · intro ht
      subst ht
      exact ⟨rfl, rfl⟩
    · intro p ht
      subst ht
      exact ⟨rfl, rfl⟩
    · simp [sendMessage, h]

/-- C6: inserting a profile row creates exactly one additional chat
message — content `username ++ " joined the chat"`, type `system`, group
flag set, sender the new profile's id — and that message is visible to
every identity under the read policy. -/
theorem c6_join_message :
    ∀ (p : Profile) (newId : String) (now : Nat) (s : StoreTables),
      ∃ m : ChatMessage,
        (insertProfileRow p newId now s).chat_messages =
          s.chat_messages ++ [m] ∧
        m.content = p.username ++ " joined the chat" ∧
        m.message_type = .system ∧
        m.is_group_message = true ∧
        m.sender_id = p.id ∧
        (∀ u : String, canReadMessage u m = true) := by
  intro p newId now s
  refine ⟨{ id := newId
            content := p.username ++ " joined the chat"
            sender_id := p.id
            receiver_id := none
            is_group_message := true
            created_at := now
            message_type := .system }, rfl, rfl, rfl, rfl, rfl, ?_⟩
  intro u
  simp [canReadMessage]

/-- C7: the inbound-message handler raises exactly one notification when
the row is visible to the current identity, the sender is someone else and
permission is granted — body the plain content for `system` messages and
`senderUsername ++ ": " ++ content` for `user` messages — and raises none
for the identity's own messages or when permission is not granted. -/
theorem c7_inbound_notification :
    ∀ (uid : String) (perm : NotifPermission) (members : List Member)
      (msg : ChatMessage),
      (msg.sender_id = uid → (onMessageInsert uid perm members msg).2 = none) ∧
      (perm ≠ .granted → (onMessageInsert uid perm members msg).2 = none) ∧
      (canReadMessage uid msg = false →
        onMessageInsert uid perm members msg = (false, none)) ∧
      (canReadMessage uid msg = true → msg.sender_id ≠ uid → perm = .granted →
        msg.message_type = .system →
          (onMessageInsert uid perm members msg).2 =
            some { title := "New Message"
                   body := msg.content
                   tag := "chat-message" }) ∧
      (∀ mem : Member,
        canReadMessage uid msg = true → msg.sender_id ≠ uid → perm = .granted →
        msg.message_type = .user →
        members.find? (fun x => x.id == msg.sender_id) = some mem →
        mem.username ≠ "" →
          (onMessageInsert uid perm members msg).2 =
            some { title := "New Message"
                   body := mem.username ++ ": " ++ msg.content
                   tag := "chat-message" }) := by
  intro uid perm members msg
  refine ⟨?_, ?_, ?_, ?_, ?_⟩
  · intro h
    unfold onMessageInsert
    by_cases hv : (msg.is_group_message || msg.sender_id == uid
        || msg.receiver_id == some uid) = true
    · simp [hv, h]
    · simp [Bool.eq_false_iff.mpr hv]
  · intro h
    unfold onMessageInsert
    by_cases hv : (msg.is_group_message || msg.sender_id == uid
        || msg.receiver_id == some uid) = true
    · simp [hv, h]
    · simp [Bool.eq_false_iff.mpr hv]
  · intro h
    unfold onMessageInsert
    unfold canReadMessage at h
    simp [h]
  · intro hv hs hp hm
    unfold onMessageInsert
    unfold canReadMessage at hv
    simp [hv, hs, hp, hm]
  · intro mem hv hs hp hm hfind hne
    unfold onMessageInsert
    unfold canReadMessage at hv
    simp [hv, hs, hp, hm, senderNameOf, hfind, hne]

/-- C4 (failing trace): viewing the direct chat with peer1 whose fetch is
in flight, the user switches to the group chat; the stale fetch then
resolves and its `setMessages` is applied unconditionally, so the
direct-only message is displayed while the group channel is active even
though it does not match the group filter — the claim's "the stale
fetch's result is discarded" does not hold of the code. -/
theorem c4_stale_fetch_applied :
    staleTraceFinal.activeChat = .group ∧
    staleMsg ∈ staleTraceFinal.messages ∧
    channelFilter "me" .group staleMsg = false := by
  refine ⟨rfl, ?_, rfl⟩
  show staleMsg ∈ staleTraceFinal.messages
  decide

/-- C5: with no existing vote row for (pollId, uid), the first insert by
uid succeeds; a second insert for the same (pollId, uid) fails with a
constraint error; and an update of uid's vote row succeeds in place,
leaving exactly one row for (pollId, uid) and creating no row. -/
theorem c5_vote_exclusivity (uid pollId : String) (i1 i2 : Int)
    (table : List PollVote)
    (h : ∀ w ∈ table, ¬(w.poll_id = pollId ∧ w.user_id = uid)) :
    insertVote uid { poll_id := pollId, user_id := uid, option_index := i1 }
        table =
      .ok (table ++ [{ poll_id := pollId, user_id := uid, option_index := i1 }]) ∧
    insertVote uid { poll_id := pollId, user_id := uid, option_index := i2 }
        (table ++ [{ poll_id := pollId, user_id := uid, option_index := i1 }]) =
      .error .constraintError ∧
    (updateVote uid pollId i2
        (table ++ [{ poll_id := pollId, user_id := uid, option_index := i1 }])).countP
        (fun w => w.poll_id == pollId && w.user_id == uid) = 1 ∧
    (updateVote uid pollId i2
        (table ++ [{ poll_id := pollId, user_id := uid, option_index := i1 }])).length =
      (table ++
        [({ poll_id := pollId, user_id := uid, option_index := i1 } : PollVote)]).length := by
  have hany : table.any
      (fun w => w.poll_id == pollId && w.user_id == uid) = false := by
    rw [List.any_eq_false]
    intro w hw
    have := h w hw
    simp only [Bool.and_eq_true, beq_iff_eq]
    exact fun hc => this hc
  have hcount : table.countP
      (fun w => w.poll_id == pollId && w.user_id == uid) = 0 := by
    rw [List.countP_eq_zero]
    intro w hw
    have := h w hw
    simp only [Bool.and_eq_true, beq_iff_eq]
    exact fun hc => this hc
  refine ⟨?_, ?_, ?_, ?_⟩
  · simp [insertVote, hany]
  · simp [insertVote, List.any_append, hany]
  · rw [updateVote_countP, List.countP_append, hcount]
    simp [List.countP_cons]
  · simp [updateVote]

/-- C5 witness: the concrete run on an empty vote table. -/
theorem c5_vote_exclusivity_witness :
    insertVote "u1" { poll_id := "p1", user_id := "u1", option_index := 1 }
        ([] ++ [{ poll_id := "p1", user_id := "u1", option_index := 0 }]) =
      .error .constraintError :=
  (c5_vote_exclusivity "u1" "p1" 0 1 [] (by simp)).2.1

/-- C8: a comment row with both parent references set, or with neither
set, is rejected by the store (never accepted, and rejected as a check
violation when the acting identity matches the row's author); a comment
with exactly one parent reference by its own author is accepted. -/
theorem c8_comment_exactly_one_parent :
    ∀ (uid : String) (c : CommentRow) (table : List CommentRow),
      ((c.schedule_id.isSome = true ∧ c.poll_id.isSome = true) ∨
       (c.schedule_id = none ∧ c.poll_id = none) →
        (∀ t2, insertComment uid c table ≠ .ok t2) ∧
        (uid = c.user_id →
          insertComment uid c table = .error .checkViolation)) ∧
      (uid = c.user_id →
        (c.schedule_id.isSome = true ∧ c.poll_id = none) ∨
        (c.schedule_id = none ∧ c.poll_id.isSome = true) →
        insertComment uid c table = .ok (table ++ [c])) := by
  intro uid c table
  constructor
  · intro hbad
    have hchk : comments_check c = false := by
      rcases hbad with ⟨h1, h2⟩ | ⟨h1, h2⟩
      · rcases Option.isSome_iff_exists.mp h1 with ⟨x, hx⟩
        rcases Option.isSome_iff_exists.mp h2 with ⟨y, hy⟩
        simp [comments_check, hx, hy]
      · simp [comments_check, h1, h2]
    constructor
    · intro t2
      unfold insertComment
      by_cases hu : (uid == c.user_id) = true
      · simp [hu, hchk]
      · simp [Bool.eq_false_iff.mpr hu]
    · intro hu
      simp [insertComment, hu, hchk]
  · intro hu hgood
    have hchk : comments_check c = true := by
      rcases hgood with ⟨h1, h2⟩ | ⟨h1, h2⟩ <;>
        simp [comments_check, h1, h2]
    simp [insertComment, hu, hchk]

/-- C9: starting from a state with no admin user, running setup-admin
creates exactly one admin user, and running it a second time detects the
existing admin and changes nothing (no new auth user, profile or role
row); if the initial state also had no admin role row, exactly one admin
role row results. -/
theorem c9_setup_admin_idempotent (id1 id2 : String) (s : AdminState)
    (h : ∀ u ∈ s.authUsers, isAdminEmail u = false) :
    setupAdmin id2 (setupAdmin id1 s) = setupAdmin id1 s ∧
    (setupAdmin id1 s).authUsers.countP isAdminEmail = 1 ∧
    ((∀ r ∈ s.userRoles, r.role ≠ .admin) →
      (setupAdmin id1 s).userRoles.countP (fun r => r.role == .admin) = 1) := by
  have hany : s.authUsers.any isAdminEmail = false := by
    rw [List.any_eq_false]
    intro u hu
    simp [h u hu]
  have hstep : setupAdmin id1 s =
      { authUsers := s.authUsers ++
          [{ id := id1, email := "admin@matchschedule.local", username := "admin" }]
        profiles := s.profiles ++ [{ id := id1, username := "admin" }]
        userRoles := s.userRoles ++ [{ user_id := id1, role := .admin }] } := by
    simp [setupAdmin, hany]
  refine ⟨?_, ?_, ?_⟩
  · rw [hstep]
    have harr : (s.authUsers ++
        [({ id := id1, email := "admin@matchschedule.local",
            username := "admin" } : AuthUser)]).any isAdminEmail = true := by
      simp [List.any_append, isAdminEmail]
    simp [setupAdmin, harr]
  · rw [hstep]
    have hz : s.authUsers.countP isAdminEmail = 0 := by
      rw [List.countP_eq_zero]
      intro u hu
      simp [h u hu]
    simp [List.countP_append, hz, List.countP_cons, isAdminEmail]
  · intro hr
    rw [hstep]
    have hz : s.userRoles.countP (fun r => r.role == .admin) = 0 := by
      rw [List.countP_eq_zero]
      intro r hrr
      simpa using hr r hrr
    simp [List.countP_append, hz, List.countP_cons]

/-- C9 witness: the concrete double run from the empty deployment. -/
theorem c9_setup_admin_idempotent_witness :
    setupAdmin "id2" (setupAdmin "id1"
        { authUsers := [], profiles := [], userRoles := [] }) =
      setupAdmin "id1" { authUsers := [], profiles := [], userRoles := [] } :=
  (c9_setup_admin_idempotent "id1" "id2"
    { authUsers := [], profiles := [], userRoles := [] } (by simp)).1

/-- C10: when the current user's vote is present in the loaded vote list,
the option buttons are disabled, `handleVote` returns without issuing an
insert, and the button click path issues no insert — so the
duplicate-insert constraint error is unreachable through this client
voting path. -/
theorem c10_vote_guard (u pollId : String) (idx : Int)
    (votes : List VoteRecord) (h : ∃ v ∈ votes, v.user_id = u) :
    optionDisabled (some u) votes = true ∧
    handleVote (some u) votes pollId idx = none ∧
    optionClick (some u) votes pollId idx = none := by
  have hfind : (votes.find? (fun v => v.user_id == u)).isSome = true := by
    rw [List.find?_isSome]
    obtain ⟨v, hv, he⟩ := h
    exact ⟨v, hv, by simp [he]⟩
  have h1 : optionDisabled (some u) votes = true := by
    simp [optionDisabled, userVote, hfind]
  have h2 : handleVote (some u) votes pollId idx = none := by
    simp [handleVote, hfind]
  exact ⟨h1, h2, by simp [optionClick, h1]⟩

/-- C10 witness: a user whose vote is loaded cannot issue a second
insert. -/
theorem c10_vote_guard_witness :
    optionClick (some "u1") [{ option_index := 0, user_id := "u1" }] "p1" 1 =
      none :=
  (c10_vote_guard "u1" "p1" 1 [{ option_index := 0, user_id := "u1" }]
    ⟨{ option_index := 0, user_id := "u1" }, by simp, rfl⟩).2.2

end Game
